import Mathlib

/-!
# Verification of the dcis-api exam-session / marks subsystem

Shallow embedding of the exam-session and marks code of the `dcis-api`
repository, and proofs settling the specification claims about it.

Embedded source files:
* `src/middleware/auth.js` — the `authorize` rest-parameter middleware;
* `src/models/ExamSession.js` / the duplicate exam-session model file —
  the `examSessionSchema` (embedded single-score marks);
* `src/routes/exam.js` — session creation, embedded mark submission,
  report-card generation, and the route table;
* the `examMarksController` file — `recordMarks`, `updateMarks` over the
  externalized `StudentMark` collection;
* `src/models/Service.js` — `studentMarkSchema` with its conditional
  `required` validators and the `finalGrade` virtual.

JavaScript numbers are modelled as `ℚ` where arithmetic is performed
(scores, statistics) and `Int` for timestamps; `undefined`-able fields
are `Option`; Mongoose validation is an explicit boolean check run at
save time.
-/

/-! ## Authorization middleware (`src/middleware/auth.js`)

`authorize = (...roles) => (req, res, next) => { if (!roles.includes(req.user.role)) ... }`

A rest argument may receive strings or (by caller mistake) whole arrays;
`Array.prototype.includes` compares with strict equality, under which a
string is never equal to an array.  `RoleArg` reflects that value space. -/

/-- A value passed to the `authorize` rest parameter: either a role string
or an array of role strings (as in `authorize(['admin', 'teacher'])`). -/
inductive RoleArg where
  | str (s : String)
  | arr (l : List String)
deriving DecidableEq, Repr

/-- `roles.includes(req.user.role)` from `authorize` in `src/middleware/auth.js`:
strict-equality membership of the user's role string in the rest-parameter list. -/
def authorize (roles : List RoleArg) (userRole : String) : Bool :=
  roles.contains (RoleArg.str userRole)

/-- The argument list the embedded-marks route passes to `authorize`:
`authorize(['admin', 'teacher'])` — a single array value, not two strings. -/
def postMarksRoles : List RoleArg :=
  [RoleArg.arr ["admin", "teacher"]]

/-! ## Embedded exam-session model

`examSessionSchema` (the exam-session model file): marks are embedded
subdocuments `{student, subject, score, submittedBy, submittedAt}`. -/

/-- An embedded mark subdocument of `examSessionSchema.marks`. -/
structure EmbeddedMark where
  student : String
  subject : String
  score : ℚ
  submittedBy : String
  submittedAt : Int
deriving DecidableEq, Repr

/-- The exam-session document (`examSessionSchema`).  Union of the fields of
the two model-file versions present in the repository (one has
`academicYear`/`sessionType`/`isActive`, the other has `session`); neither
version carries marks deadlines, a `status` field, or reopen-tracking fields. -/
structure ExamSession where
  academicYear : String
  term : String
  session : String
  sessionType : String
  startDate : Int
  endDate : Int
  isActive : Bool
  programs : List String
  classes : List String
  reminderFrequency : Int
  publicationDateTime : Int
  isOpen : Bool
  marks : List EmbeddedMark
deriving DecidableEq, Repr

/-- One element of the `marks` array in the body of
`POST /api/exam-sessions/:id/marks/:subjectId`: `{studentId, score}`. -/
structure MarkInput where
  studentId : String
  score : ℚ
deriving DecidableEq, Repr

/-- The per-entry body of the `marks.forEach` loop in
`POST /:id/marks/:subjectId` (`src/routes/exam.js`): `findIndex` on
`(student, subject)` and in-place update of the first matching embedded
mark, else `push` of a new one — rendered as structural recursion on the
marks list. -/
def upsertMark (studentId subjectId : String) (score : ℚ)
    (userId : String) (now : Int) : List EmbeddedMark → List EmbeddedMark
  | [] => [⟨studentId, subjectId, score, userId, now⟩]
  | em :: rest =>
    if em.student == studentId && em.subject == subjectId then
      { em with score := score, submittedBy := userId, submittedAt := now } :: rest
    else
      em :: upsertMark studentId subjectId score userId now rest

/-- Responses of the embedded-marks submission route. -/
inductive MarksResponse where
  | notFound
  | sessionClosed
  | success
  | forbidden
deriving DecidableEq, Repr

/-- The handler body of `POST /:id/marks/:subjectId` (after the session was
found): reject with `'Exam session is closed'` when `!examSession.isOpen`,
otherwise apply every entry of the request's `marks` array and save. -/
def submitMarks (sess : ExamSession) (subjectId userId : String) (now : Int)
    (inputs : List MarkInput) : MarksResponse × ExamSession :=
  if sess.isOpen then
    (MarksResponse.success,
      { sess with
        marks := inputs.foldl
          (fun ms m => upsertMark m.studentId subjectId m.score userId now ms)
          sess.marks })
  else
    (MarksResponse.sessionClosed, sess)

/-- The full route `POST /api/exam-sessions/:id/marks/:subjectId` including
its `authorize(['admin', 'teacher'])` gate and the not-found check. -/
def postMarksRoute (userRole : String) (db : Option ExamSession)
    (subjectId userId : String) (now : Int) (inputs : List MarkInput) :
    MarksResponse × Option ExamSession :=
  if authorize postMarksRoles userRole then
    match db with
    | none => (MarksResponse.notFound, none)
    | some sess =>
      let r := submitMarks sess subjectId userId now inputs
      (r.1, some r.2)
  else
    (MarksResponse.forbidden, db)

/-! ## Grading-scale resolution (report card, `src/routes/exam.js`) -/

/-- One band of a program's grading scale: `{grade, minScore, maxScore}`. -/
structure GradeBand where
  grade : String
  minScore : ℚ
  maxScore : ℚ
deriving DecidableEq, Repr

/-- `gradingScale.find(g => mark.score >= g.minScore && mark.score <= g.maxScore)`
followed by `grade ? grade.grade : 'N/A'` from the report-card route. -/
def gradeFor (scale : List GradeBand) (score : ℚ) : String :=
  match scale.find? (fun g => score ≥ g.minScore && score ≤ g.maxScore) with
  | some g => g.grade
  | none => "N/A"

/-! ## Report-card statistics (`GET /:id/report-card/:studentId`) -/

/-- The `statistics` object of the report-card response. -/
structure Statistics where
  totalSubjects : ℕ
  averageScore : ℚ
  highestScore : ℚ
  lowestScore : ℚ
deriving DecidableEq, Repr

/-- `Math.max(...scores)` on the route's non-empty score list (the route
returns 404 before reaching it when the list is empty; the `[]` case is
an unreachable placeholder). -/
def maxSpread : List ℚ → ℚ
  | [] => 0
  | q :: rest => rest.foldl max q

/-- `Math.min(...scores)`, same conventions as `maxSpread`. -/
def minSpread : List ℚ → ℚ
  | [] => 0
  | q :: rest => rest.foldl min q

/-- The `statistics` block computed by the report-card route: length of the
student's embedded marks, `reduce`-sum of raw scores divided by length,
and `Math.max`/`Math.min` over the raw scores. -/
def reportCardStatistics (studentMarks : List EmbeddedMark) : Statistics :=
  { totalSubjects := studentMarks.length
    averageScore :=
      (studentMarks.foldl (fun sum m => sum + m.score) 0) / (studentMarks.length : ℚ)
    highestScore := maxSpread (studentMarks.map EmbeddedMark.score)
    lowestScore := minSpread (studentMarks.map EmbeddedMark.score) }

/-- One row of the report card's `marks` array: subject, raw score, and the
grade looked up in the grading scale. -/
structure ReportCardMark where
  subject : String
  score : ℚ
  grade : String
deriving DecidableEq, Repr

/-- The report-card body built by `GET /:id/report-card/:studentId`. -/
structure ReportCard where
  marks : List ReportCardMark
  statistics : Statistics
deriving DecidableEq, Repr

/-- `GET /:id/report-card/:studentId` (session already found): filter the
session's embedded marks by student, 404 (`none`) when no marks, otherwise
map each mark through the grading scale and compute the statistics. -/
def generateReportCard (sess : ExamSession) (scale : List GradeBand)
    (studentId : String) : Option ReportCard :=
  let studentMarks := sess.marks.filter (fun m => m.student == studentId)
  if studentMarks.isEmpty then
    none
  else
    some { marks := studentMarks.map
             (fun m => ⟨m.subject, m.score, gradeFor scale m.score⟩)
           statistics := reportCardStatistics studentMarks }

/-! ## Externalized `StudentMark` model (`src/models/Service.js`) -/

/-- A `StudentMark` document (`studentMarkSchema`).  Conditionally-required
numeric fields and the kindergarten `grade` are `Option`s; the schema has no
`program` path, so the `program: program._id` key passed by `recordMarks` is
dropped by strict mode and does not appear here. -/
structure StudentMark where
  student : String
  examSession : String
  subject : String
  grade : Option String
  academicEngagement : Option ℚ
  midtermExam : Option ℚ
  endtermExam : Option ℚ
  teacherComment : Option String
  programLevel : String
  sessionType : String
  academicYear : String
  term : String
deriving DecidableEq, Repr

/-- A Mongoose conditional `required` validator: when `cond` holds the field
must be present. -/
def requiredIf (cond : Bool) (v : Option α) : Bool :=
  !cond || v.isSome

/-- Mongoose `min`/`max` validators on an optional numeric path: checked
only when the field is present. -/
def inRange (lo hi : ℚ) : Option ℚ → Bool
  | none => true
  | some q => lo ≤ q && q ≤ hi

/-- The save-time validation of `studentMarkSchema`: the conditional
`required` functions, the `enum`s, the numeric bounds, and the required
string paths (Mongoose rejects a required string that is absent or empty). -/
def validStudentMark (m : StudentMark) : Bool :=
  requiredIf (m.programLevel == "kindergarten") m.grade &&
  (match m.grade with
   | none => true
   | some g => ["A", "B", "C", "D", "E"].contains g) &&
  requiredIf (m.sessionType == "midterm" && !(m.programLevel == "kindergarten"))
    m.academicEngagement &&
  inRange 0 20 m.academicEngagement &&
  requiredIf (m.sessionType == "midterm" && !(m.programLevel == "kindergarten"))
    m.midtermExam &&
  inRange 0 80 m.midtermExam &&
  requiredIf (m.sessionType == "endterm" && !(m.programLevel == "kindergarten"))
    m.endtermExam &&
  inRange 0 100 m.endtermExam &&
  (match m.teacherComment with
   | none => false
   | some s => !(s == "")) &&
  ["kindergarten", "primary", "secondary", "highschool"].contains m.programLevel &&
  ["midterm", "endterm", "kindergarten"].contains m.sessionType &&
  !(m.term == "")

/-- `program.name.toLowerCase()`, written over the character list so that
concrete instances evaluate. -/
def lowerString (s : String) : String :=
  ⟨s.data.map Char.toLower⟩

/-- A `Program` document as read by `recordMarks` (`_id` and `name`). -/
structure ProgramDoc where
  id : String
  name : String
deriving DecidableEq, Repr

/-- The request body destructured by `recordMarks` in the
`examMarksController` file. -/
structure RecordMarksBody where
  studentId : String
  examSessionId : String
  subjectId : String
  grade : Option String
  academicEngagement : Option ℚ
  midtermExam : Option ℚ
  endtermExam : Option ℚ
  teacherComment : Option String
  program : String
deriving DecidableEq, Repr

/-- The `new StudentMark({...})` construction inside `recordMarks`: copies
session/program context and conditionally spreads the payload fields —
`grade` only when `program.name === 'Kindergarten'`, the midterm pair only
when `sessionType === 'midterm'`, `endtermExam` only for `'endterm'`.
`academicYear` follows `examSession.session || examSession.academicYear`. -/
def buildMarkRecord (sess : ExamSession) (program : ProgramDoc)
    (b : RecordMarksBody) : StudentMark :=
  { student := b.studentId
    examSession := b.examSessionId
    subject := b.subjectId
    programLevel := lowerString program.name
    sessionType := sess.sessionType
    academicYear := if sess.session == "" then sess.academicYear else sess.session
    term := sess.term
    teacherComment := b.teacherComment
    grade := if program.name == "Kindergarten" then b.grade else none
    academicEngagement :=
      if sess.sessionType == "midterm" then b.academicEngagement else none
    midtermExam :=
      if sess.sessionType == "midterm" then b.midtermExam else none
    endtermExam :=
      if sess.sessionType == "endterm" then b.endtermExam else none }

/-- Outcomes of `recordMarks`. -/
inductive RecordResult where
  | created (m : StudentMark)
  | validationError
deriving DecidableEq, Repr

/-- `recordMarks` after the session, student and program were found: build a
fresh record and `save()` it — the controller performs no lookup of an
existing record for the (student, session, subject) tuple, no session-status
check, and no deadline check; the save appends to the collection when the
schema validation passes. -/
def recordMarks (db : List StudentMark) (sess : ExamSession)
    (program : ProgramDoc) (b : RecordMarksBody) : RecordResult × List StudentMark :=
  let record := buildMarkRecord sess program b
  if validStudentMark record then
    (RecordResult.created record, db ++ [record])
  else
    (RecordResult.validationError, db)

/-- The update payload of `updateMarks` (`PUT /:id` of the marks router). -/
structure UpdateMarksBody where
  grade : Option String
  academicEngagement : Option ℚ
  midtermExam : Option ℚ
  endtermExam : Option ℚ
  teacherComment : Option String
deriving DecidableEq, Repr

/-- JavaScript truthiness of a possibly-absent numeric field (`0` is falsy). -/
def truthyNum : Option ℚ → Bool
  | none => false
  | some q => !(q == 0)

/-- JavaScript truthiness of a possibly-absent string field (`''` is falsy). -/
def truthyStr : Option String → Bool
  | none => false
  | some s => !(s == "")

/-- The field-update logic of `updateMarks`: the `if/else if` chain on
`program.name === 'Kindergarten' && updates.grade`, then the record's
`sessionType`, each assignment guarded by the update value's truthiness. -/
def updateMarks (programName : String) (m : StudentMark)
    (u : UpdateMarksBody) : StudentMark :=
  let m1 :=
    if programName == "Kindergarten" && truthyStr u.grade then
      { m with grade := u.grade }
    else if m.sessionType == "midterm" then
      let ma :=
        if truthyNum u.academicEngagement then
          { m with academicEngagement := u.academicEngagement }
        else m
      if truthyNum u.midtermExam then { ma with midtermExam := u.midtermExam } else ma
    else if m.sessionType == "endterm" then
      if truthyNum u.endtermExam then { m with endtermExam := u.endtermExam } else m
    else m
  if truthyStr u.teacherComment then { m1 with teacherComment := u.teacherComment } else m1

/-- The numeric value of the `finalGrade` virtual of `studentMarkSchema`:
`undefined` (`none`) for kindergarten records (whose `finalGrade` is the
letter grade) and for the `kindergarten` session type; the sum
`academicEngagement + midtermExam` for midterm; `endtermExam` for endterm. -/
def finalizedScore (m : StudentMark) : Option ℚ :=
  if m.programLevel == "kindergarten" then none
  else if m.sessionType == "midterm" then
    match m.academicEngagement, m.midtermExam with
    | some a, some e => some (a + e)
    | _, _ => none
  else if m.sessionType == "endterm" then m.endtermExam
  else none

/-- The statistics the specification describes for the report card, stated
in the spec's words for comparison with `reportCardStatistics`: count of the
student's mark records, and mean/max/min of the finalized numeric values
(`finalizedScore`), kindergarten entries excluded. -/
def specReportStatistics (records : List StudentMark) : Statistics :=
  let vals := records.filterMap finalizedScore
  { totalSubjects := records.length
    averageScore := vals.sum / (vals.length : ℚ)
    highestScore := maxSpread vals
    lowestScore := minSpread vals }

/-! ## Session creation (`POST /api/exam-sessions`) -/

/-- The request body of the create-session route.  The route combines the
`publicationDate` and `publicationTime` strings into a `Date`; the combined
timestamp is carried here directly. -/
structure CreateSessionBody where
  term : String
  startDate : Int
  endDate : Int
  publicationDateTime : Int
  program : List String
  classes : List String
  submissionFrequency : Int
  session : String
  sessionType : String
deriving DecidableEq, Repr

/-- The `new ExamSession({...}); save()` of `POST /` in `src/routes/exam.js`.
No date-ordering check exists in the handler or the schema; the body keys
`program` and `submissionFrequency` do not match the schema paths `programs`
and `reminderFrequency` and are dropped (defaults apply); `academicYear` is
`session[0]`, the first character of the session string. -/
def createExamSession (b : CreateSessionBody) : ExamSession :=
  { term := b.term
    startDate := b.startDate
    endDate := b.endDate
    publicationDateTime := b.publicationDateTime
    programs := []
    classes := b.classes
    reminderFrequency := 1
    session := b.session
    sessionType := b.sessionType
    academicYear := b.session.take 1
    isActive := true
    isOpen := true
    marks := [] }

/-! ## Route tables -/

/-- HTTP methods used by the exam routers. -/
inductive HttpMethod where
  | get
  | post
  | put
  | delete
deriving DecidableEq, Repr

/-- The route table registered in `src/routes/exam.js`, in source order. -/
def examRoutes : List (HttpMethod × String) :=
  [(HttpMethod.post, "/"),
   (HttpMethod.get, "/"),
   (HttpMethod.get, "/:id"),
   (HttpMethod.put, "/:id"),
   (HttpMethod.put, "/:id/toggle-status"),
   (HttpMethod.post, "/:id/marks/:subjectId"),
   (HttpMethod.get, "/:id/student/:studentId"),
   (HttpMethod.get, "/:id/report-card/:studentId"),
   (HttpMethod.delete, "/:id")]

/-- The route table of the marks router (the second router file):
`/record`, `/student`, `/:id`. -/
def examMarksRoutes : List (HttpMethod × String) :=
  [(HttpMethod.post, "/record"),
   (HttpMethod.get, "/student"),
   (HttpMethod.put, "/:id")]

/-- The schema paths of `examSessionSchema` (union of the two model-file
versions, plus the automatic `timestamps` pair). -/
def examSessionSchemaFields : List String :=
  ["academicYear", "term", "session", "sessionType", "startDate", "endDate",
   "isActive", "programLevel", "programs", "classes", "reminderFrequency",
   "publicationDateTime", "isOpen", "marks", "createdAt", "updatedAt"]

/-- The student's embedded marks for a (student, subject) pair — the
predicate used by the route's `findIndex`. -/
def marksFor (marks : List EmbeddedMark) (studentId subjectId : String) :
    List EmbeddedMark :=
  marks.filter (fun em => em.student == studentId && em.subject == subjectId)

/-! ## Claim C10 — the embedded-marks route's authorization gate -/

/-- C10: for every authenticated principal, regardless of role (including
admin and teacher), `POST /api/exam-sessions/:id/marks/:subjectId` is
rejected with a 403 authorization failure and never reaches the
mark-writing handler: the route passes the single array
`['admin', 'teacher']` to the rest-parameter `authorize`, and the
strict-equality membership test of the role string against that list can
never succeed, so the response is `forbidden` and the stored session is
untouched. -/
theorem c10_postMarks_always_forbidden :
    ∀ (userRole : String) (db : Option ExamSession) (subjectId userId : String)
      (now : Int) (inputs : List MarkInput),
    postMarksRoute userRole db subjectId userId now inputs =
      (MarksResponse.forbidden, db) := by
  intro userRole db subjectId userId now inputs
  simp [postMarksRoute, authorize, postMarksRoles, List.contains]

/-! ## Claim C5 — grading-scale resolution -/

/-- C5: grade resolution returns the label of the first band in the ordered
band list whose `minScore ≤ score ≤ maxScore`: when the bands before `b`
all fail to match and `b` matches, `gradeFor` returns `b.grade`; when no
band of the scale matches, it returns the string `"N/A"` rather than
failing. -/
theorem c5_gradeFor_first_band :
    (∀ (pre post : List GradeBand) (b : GradeBand) (score : ℚ),
        (∀ g ∈ pre, ¬(g.minScore ≤ score ∧ score ≤ g.maxScore)) →
        b.minScore ≤ score → score ≤ b.maxScore →
        gradeFor (pre ++ b :: post) score = b.grade) ∧
    (∀ (scale : List GradeBand) (score : ℚ),
        (∀ g ∈ scale, ¬(g.minScore ≤ score ∧ score ≤ g.maxScore)) →
        gradeFor scale score = "N/A") := by
  constructor
  · intro pre post b score hpre hmin hmax
    induction pre with
    | nil =>
      unfold gradeFor
      rw [List.nil_append, List.find?_cons_of_pos]
      simp [ge_iff_le, hmin, hmax]
    | cons g gs ih =>
      have hg : ¬(g.minScore ≤ score ∧ score ≤ g.maxScore) :=
        hpre g (List.mem_cons_self g gs)
      have hgs : ∀ x ∈ gs, ¬(x.minScore ≤ score ∧ score ≤ x.maxScore) :=
        fun x hx => hpre x (List.mem_cons_of_mem g hx)
      unfold gradeFor at ih ⊢
      rw [List.cons_append, List.find?_cons_of_neg]
      · exact ih hgs
      · simp [ge_iff_le]
        intro h1
        exact lt_of_not_le (fun h2 => hg ⟨h1, h2⟩)
  · intro scale score hnone
    unfold gradeFor
    rw [List.find?_eq_none.mpr]
    intro g hg
    simp [ge_iff_le]
    intro h1
    exact lt_of_not_le (fun h2 => hnone g hg ⟨h1, h2⟩)

/-- Witness for C5: on the scale `A = [160, 200]`, `B = [120, 159]`, the
score 130 resolves to the first matching band `B`, and the score 85, which
no band covers, resolves to `"N/A"`. -/
theorem c5_gradeFor_first_band_witness :
    gradeFor [⟨"A", 160, 200⟩, ⟨"B", 120, 159⟩] 130 = "B" ∧
    gradeFor [⟨"A", 160, 200⟩, ⟨"B", 120, 159⟩] 85 = "N/A" :=
  ⟨c5_gradeFor_first_band.1 [⟨"A", 160, 200⟩] [] ⟨"B", 120, 159⟩ 130
      (by decide) (by decide) (by decide),
   c5_gradeFor_first_band.2 [⟨"A", 160, 200⟩, ⟨"B", 120, 159⟩] 85 (by decide)⟩

/-! ## Claim C6 — session creation does not validate date ordering -/

/-- A creation body violating every ordering invariant: `endDate` (50)
before `startDate` (100) and `publicationDateTime` (10) before both. -/
def c6BadBody : CreateSessionBody :=
  { term := "Term 1", startDate := 100, endDate := 50, publicationDateTime := 10,
    program := [], classes := [], submissionFrequency := 1,
    session := "2024/2025", sessionType := "midterm" }

/-- C6 counterexample: the claim says creation rejects any input violating
`endDate ≥ startDate` and `publicationDateTime` after the deadlines with a
`ValidationError`, persisting no session.  The handler of `POST /` performs
no such check: `c6BadBody` has `endDate < startDate` and
`publicationDateTime < startDate`, yet creation succeeds and persists the
session with the violating dates verbatim. -/
theorem c6_counterexample :
    c6BadBody.endDate < c6BadBody.startDate ∧
    c6BadBody.publicationDateTime < c6BadBody.startDate ∧
    (createExamSession c6BadBody).endDate = 50 ∧
    (createExamSession c6BadBody).startDate = 100 ∧
    (createExamSession c6BadBody).publicationDateTime = 10 ∧
    (createExamSession c6BadBody).isOpen = true := by
  decide

/-- C6 amended: session creation performs no date-ordering validation at
all — every creation body is accepted, the session is persisted with the
supplied `startDate`, `endDate` and `publicationDateTime` verbatim
(ordering unconstrained), opened (`isOpen = true`) and with an empty marks
list; no `ValidationError` path exists in the handler or the schema. -/
theorem c6_create_never_validates_dates :
    ∀ b : CreateSessionBody,
    (createExamSession b).startDate = b.startDate ∧
    (createExamSession b).endDate = b.endDate ∧
    (createExamSession b).publicationDateTime = b.publicationDateTime ∧
    (createExamSession b).isOpen = true ∧
    (createExamSession b).marks = [] := by
  intro b
  simp [createExamSession]

/-! ## Claim C3 — no deadline mechanism exists -/

/-- Whether `needle` occurs as a contiguous segment of `hay`. -/
def listHasSeg (needle : List Char) : List Char → Bool
  | [] => List.isPrefixOf needle []
  | c :: rest => List.isPrefixOf needle (c :: rest) || listHasSeg needle rest

/-- A concrete session whose temporal fields all lie before time 101:
`startDate` 0, `endDate` 90, `publicationDateTime` 100. -/
def c3Sess : ExamSession :=
  { academicYear := "2024", term := "Term 1", session := "2024/2025",
    sessionType := "midterm", startDate := 0, endDate := 90, isActive := true,
    programs := ["p1"], classes := [], reminderFrequency := 1,
    publicationDateTime := 100, isOpen := true, marks := [] }

/-- The program and payload of a mark submission arriving at time 101,
after every date carried by `c3Sess`. -/
def c3Prog : ProgramDoc := { id := "p1", name := "Primary" }

/-- A well-formed midterm payload for `c3Sess` (engagement 15, exam 70). -/
def c3Body : RecordMarksBody :=
  { studentId := "s1", examSessionId := "e1", subjectId := "math",
    grade := none, academicEngagement := some 15, midtermExam := some 70,
    endtermExam := none, teacherComment := some "good", program := "p1" }

/-- C3: the claim says a submission at a slot's deadline is accepted and one
time unit later is rejected with `DeadlinePassedError`.  The code has no
deadline mechanism at all: the embedded route's response is independent of
the request time (the time only stamps `submittedAt`), the session schema
carries no `firstMarksDeadline`/`secondMarksDeadline` paths for a deadline
to live in, and `recordMarks` — which takes no clock input — accepts and
persists a submission against `c3Sess` even though every temporal field of
the session (`endDate` 90, `publicationDateTime` 100) lies before the
request time 101. -/
theorem c3_no_deadline_checks :
    (∀ (sess : ExamSession) (subjectId userId : String) (t₁ t₂ : Int)
       (inputs : List MarkInput),
       (submitMarks sess subjectId userId t₁ inputs).1 =
         (submitMarks sess subjectId userId t₂ inputs).1) ∧
    examSessionSchemaFields.contains "firstMarksDeadline" = false ∧
    examSessionSchemaFields.contains "secondMarksDeadline" = false ∧
    c3Sess.endDate < 101 ∧ c3Sess.publicationDateTime < 101 ∧
    (recordMarks [] c3Sess c3Prog c3Body).1 =
      RecordResult.created (buildMarkRecord c3Sess c3Prog c3Body) ∧
    (recordMarks [] c3Sess c3Prog c3Body).2 = [buildMarkRecord c3Sess c3Prog c3Body] := by
  refine ⟨?_, by decide, by decide, by decide, by decide, by decide, by decide⟩
  intro sess subjectId userId t₁ t₂ inputs
  by_cases h : sess.isOpen <;> simp [submitMarks, h]

/-! ## Claim C8 — no reopen operation exists -/

/-- C8: the claim describes a reopen operation that fails for teacher/parent
and succeeds for admin/superadmin, setting `status`/`isOpen` and recording
`reopenedBy`/`reopenedAt`.  No route of either exam router mentions
`reopen`, and the session schema has no `status`, `reopenedBy` or
`reopenedAt` path — so no principal, privileged or not, can invoke a reopen
transition, and the tracking fields the claim requires cannot be stored. -/
theorem c8_reopen_absent :
    (examRoutes.all (fun r => !(listHasSeg "reopen".data r.2.data))) = true ∧
    (examMarksRoutes.all (fun r => !(listHasSeg "reopen".data r.2.data))) = true ∧
    examSessionSchemaFields.contains "status" = false ∧
    examSessionSchemaFields.contains "reopenedBy" = false ∧
    examSessionSchemaFields.contains "reopenedAt" = false := by
  decide

/-! ## Claim C2 — submission checks only the persisted `isOpen` flag -/

/-- A session whose `publicationDateTime` (100) is already past at request
time 200 — per the specification its derived status would be `published` —
but whose persisted `isOpen` flag is still `true`; it was never reopened
(the schema cannot even record a reopening). -/
def c2Sess : ExamSession :=
  { academicYear := "2024", term := "Term 1", session := "2024/2025",
    sessionType := "midterm", startDate := 0, endDate := 90, isActive := true,
    programs := [], classes := [], reminderFrequency := 1,
    publicationDateTime := 100, isOpen := true, marks := [] }

/-- C2 counterexample: the claim says every mark submission first recomputes
the session's derived status against the current time and fails with
`SessionClosedError` (writing nothing) when that status is closed or
published.  At time 200 the derived status of `c2Sess` is published
(`publicationDateTime` = 100 < 200) and the session was never reopened,
yet the embedded-marks handler accepts the submission and writes the mark:
only the stale persisted `isOpen` flag is consulted. -/
theorem c2_counterexample :
    c2Sess.publicationDateTime < 200 ∧
    (submitMarks c2Sess "math" "t1" 200 [⟨"s1", 50⟩]).1 = MarksResponse.success ∧
    (submitMarks c2Sess "math" "t1" 200 [⟨"s1", 50⟩]).2.marks =
      [⟨"s1", "math", 50, "t1", 200⟩] := by
  decide

/-- C2 amended: the embedded-marks handler gates submission only on the
persisted `isOpen` flag — when it is `false` the request fails with the
`'Exam session is closed'` response and the session (hence every mark
field) is left unchanged, and when it is `true` the submission succeeds —
no derived status is recomputed from the current time; and the
`recordMarks` path performs no session-openness check at all: its result
is unchanged under any value of the session's `isOpen` flag. -/
theorem c2_submission_checks_only_isOpen :
    ∀ (sess : ExamSession) (subjectId userId : String) (now : Int)
      (inputs : List MarkInput) (db : List StudentMark) (prog : ProgramDoc)
      (b : RecordMarksBody) (c : Bool),
    (sess.isOpen = false →
      submitMarks sess subjectId userId now inputs = (MarksResponse.sessionClosed, sess)) ∧
    (sess.isOpen = true →
      (submitMarks sess subjectId userId now inputs).1 = MarksResponse.success) ∧
    recordMarks db { sess with isOpen := c } prog b = recordMarks db sess prog b := by
  intro sess subjectId userId now inputs db prog b c
  refine ⟨fun h => by simp [submitMarks, h], fun h => by simp [submitMarks, h], rfl⟩

/-- The session of `c2Sess` with its `isOpen` flag cleared, for the C2
witness. -/
def c2ClosedSess : ExamSession :=
  { c2Sess with isOpen := false }

/-- Witness for C2 (amended): submitting to the closed `c2ClosedSess` yields
the `'Exam session is closed'` response and leaves the session unchanged. -/
theorem c2_submission_checks_only_isOpen_witness :
    submitMarks c2ClosedSess "math" "t1" 0 [] = (MarksResponse.sessionClosed, c2ClosedSess) :=
  (c2_submission_checks_only_isOpen c2ClosedSess "math" "t1" 0 [] []
    ⟨"p1", "Primary"⟩ ⟨"s1", "e1", "math", none, none, none, none, some "c", "p1"⟩
    false).1 rfl

/-! ## Claim C7 — program-level / entry-kind separation -/

/-- A midterm session whose associated program is Kindergarten — the
session-level `programLevel` is never consulted by `recordMarks`, so this
combination reaches the record builder. -/
def c7Sess : ExamSession :=
  { academicYear := "2024", term := "Term 1", session := "2024/2025",
    sessionType := "midterm", startDate := 0, endDate := 90, isActive := true,
    programs := ["pk"], classes := [], reminderFrequency := 1,
    publicationDateTime := 100, isOpen := true, marks := [] }

/-- The Kindergarten program. -/
def c7Prog : ProgramDoc := { id := "pk", name := "Kindergarten" }

/-- A payload carrying both a kindergarten remark grade and midterm numeric
scores. -/
def c7Body : RecordMarksBody :=
  { studentId := "s1", examSessionId := "e1", subjectId := "read",
    grade := some "A", academicEngagement := some 10, midtermExam := some 50,
    endtermExam := none, teacherComment := some "ok", program := "pk" }

/-- The record `recordMarks` builds and saves for `c7Body`. -/
def c7Record : StudentMark := buildMarkRecord c7Sess c7Prog c7Body

/-- C7 counterexample: the claim says a kindergarten-level mark never has a
numeric score field populated.  For a Kindergarten student submitted into a
midterm-type session, `recordMarks` spreads the `grade` (its condition is
the program name) and the numeric pair (its condition is the session type)
independently, and the schema validation accepts the result: a kindergarten
record with `academicEngagement` and `midtermExam` populated is persisted. -/
theorem c7_counterexample :
    (recordMarks [] c7Sess c7Prog c7Body).2 = [c7Record] ∧
    c7Record.programLevel = "kindergarten" ∧
    c7Record.grade = some "A" ∧
    c7Record.academicEngagement = some 10 ∧
    c7Record.midtermExam = some 50 := by
  decide

/-- C7 amended: the separation the claim asserts holds only partially:
a record built for a non-Kindergarten program never carries a remark grade,
a record built for a Kindergarten program inside a `kindergarten`-type
session carries no numeric field, and `updateMarks` never sets the grade of
a record whose program is not Kindergarten — but (per the counterexample) a
Kindergarten record created in a midterm or endterm session may carry
numeric fields alongside its grade. -/
theorem c7_entry_kind_separation :
    ∀ (sess : ExamSession) (prog : ProgramDoc) (b : RecordMarksBody)
      (name : String) (m : StudentMark) (u : UpdateMarksBody),
    (prog.name ≠ "Kindergarten" → (buildMarkRecord sess prog b).grade = none) ∧
    (prog.name = "Kindergarten" → sess.sessionType = "kindergarten" →
      (buildMarkRecord sess prog b).academicEngagement = none ∧
      (buildMarkRecord sess prog b).midtermExam = none ∧
      (buildMarkRecord sess prog b).endtermExam = none) ∧
    (name ≠ "Kindergarten" → (updateMarks name m u).grade = m.grade) := by
  intro sess prog b name m u
  refine ⟨fun h => by simp [buildMarkRecord, h],
          fun h1 h2 => by simp [buildMarkRecord, h2],
          fun h => ?_⟩
  have hfalse : (name == "Kindergarten") = false := by
    simpa using h
  simp only [updateMarks, hfalse, Bool.false_and, if_false]
  repeat' split
  all_goals simp_all

/-- Witness for C7 (amended): for the Primary program the built record has
no remark grade. -/
theorem c7_entry_kind_separation_witness :
    (buildMarkRecord c7Sess ⟨"p1", "Primary"⟩ c7Body).grade = none :=
  (c7_entry_kind_separation c7Sess ⟨"p1", "Primary"⟩ c7Body "Primary" c7Record
    ⟨none, none, none, none, none⟩).1 (by decide)


/-! ## Claim C9 — bulk submission applies every entry unconditionally -/

/-- After an upsert for `(sid, subj)`, the marks list contains an entry for
that pair (either the updated existing entry or the pushed new one). -/
theorem upsertMark_exists_match (sid subj : String) (score : ℚ) (u : String)
    (t : Int) :
    ∀ marks : List EmbeddedMark,
    ∃ em ∈ upsertMark sid subj score u t marks,
      em.student = sid ∧ em.subject = subj := by
  intro marks
  induction marks with
  | nil =>
    exact ⟨⟨sid, subj, score, u, t⟩, by simp [upsertMark]⟩
  | cons em rest ih =>
    by_cases hc : (em.student == sid && em.subject == subj) = true
    · rw [Bool.and_eq_true] at hc
      refine ⟨{ em with score := score, submittedBy := u, submittedAt := t }, ?_, ?_, ?_⟩
      · simp [upsertMark, eq_of_beq hc.1, eq_of_beq hc.2]
      · exact eq_of_beq hc.1
      · exact eq_of_beq hc.2
    · obtain ⟨x, hx, hp⟩ := ih
      refine ⟨x, ?_, hp⟩
      simp only [upsertMark, if_neg hc]
      exact List.mem_cons_of_mem em hx

/-- An upsert never changes the `student`/`subject` fields of existing
entries: an entry for a pair survives any later upsert. -/
theorem upsertMark_preserves_match (sid subj : String) (score : ℚ) (u : String)
    (t : Int) (a b : String) :
    ∀ marks : List EmbeddedMark,
    (∃ em ∈ marks, em.student = a ∧ em.subject = b) →
    ∃ em ∈ upsertMark sid subj score u t marks,
      em.student = a ∧ em.subject = b := by
  intro marks
  induction marks with
  | nil =>
    rintro ⟨x, hx, _⟩
    exact absurd hx (List.not_mem_nil x)
  | cons em rest ih =>
    rintro ⟨x, hx, hp⟩
    by_cases hc : (em.student == sid && em.subject == subj) = true
    · rcases List.mem_cons.mp hx with rfl | hxr
      · refine ⟨{ x with score := score, submittedBy := u, submittedAt := t }, ?_, ?_⟩
        · simp [upsertMark, hc]
        · simpa using hp
      · refine ⟨x, ?_, hp⟩
        simp only [upsertMark, if_pos hc]
        exact List.mem_cons_of_mem _ hxr
    · rcases List.mem_cons.mp hx with rfl | hxr
      · refine ⟨x, ?_, hp⟩
        simp only [upsertMark, if_neg hc]
        exact List.mem_cons_self _ _
      · obtain ⟨y, hy, hyp⟩ := ih ⟨x, hxr, hp⟩
        refine ⟨y, ?_, hyp⟩
        simp only [upsertMark, if_neg hc]
        exact List.mem_cons_of_mem _ hy

/-- An entry for a pair survives the whole `forEach` fold. -/
theorem foldl_upsert_preserves_match (subj u : String) (t : Int) (a b : String) :
    ∀ (inputs : List MarkInput) (marks : List EmbeddedMark),
    (∃ em ∈ marks, em.student = a ∧ em.subject = b) →
    ∃ em ∈ inputs.foldl (fun ms mi => upsertMark mi.studentId subj mi.score u t ms) marks,
      em.student = a ∧ em.subject = b := by
  intro inputs
  induction inputs with
  | nil => intro marks h; simpa using h
  | cons mi rest ih =>
    intro marks h
    simp only [List.foldl_cons]
    exact ih _ (upsertMark_preserves_match _ _ _ _ _ _ _ _ h)

/-- Every processed input ends up with a matching entry in the folded marks
list, whatever its score. -/
theorem foldl_upsert_covers (subj u : String) (t : Int) :
    ∀ (inputs : List MarkInput) (marks : List EmbeddedMark) (mi : MarkInput),
    mi ∈ inputs →
    ∃ em ∈ inputs.foldl (fun ms m => upsertMark m.studentId subj m.score u t ms) marks,
      em.student = mi.studentId ∧ em.subject = subj := by
  intro inputs
  induction inputs with
  | nil => intro marks mi h; exact absurd h (List.not_mem_nil mi)
  | cons m0 rest ih =>
    intro marks mi hmi
    simp only [List.foldl_cons]
    rcases List.mem_cons.mp hmi with rfl | hr
    · exact foldl_upsert_preserves_match _ _ _ _ _ rest _
        (upsertMark_exists_match _ _ _ _ _ marks)
    · exact ih _ mi hr

/-- C9 amended: the bulk route performs no per-entry validation and no
per-entry error reporting: for an open session every entry of the batch —
whatever its score, in range or not — is applied to the embedded marks
list, and the response is the single success message. -/
theorem c9_bulk_applies_every_entry :
    ∀ (sess : ExamSession) (subjectId userId : String) (now : Int)
      (inputs : List MarkInput),
    sess.isOpen = true →
    (submitMarks sess subjectId userId now inputs).1 = MarksResponse.success ∧
    ∀ mi ∈ inputs,
      ∃ em ∈ (submitMarks sess subjectId userId now inputs).2.marks,
        em.student = mi.studentId ∧ em.subject = subjectId := by
  intro sess subjectId userId now inputs hopen
  constructor
  · simp [submitMarks, hopen]
  · intro mi hmi
    have hmarks : (submitMarks sess subjectId userId now inputs).2.marks =
        inputs.foldl (fun ms m => upsertMark m.studentId subjectId m.score userId now ms)
          sess.marks := by
      simp [submitMarks, hopen]
    rw [hmarks]
    exact foldl_upsert_covers _ _ _ _ _ mi hmi

/-- An open session with no marks yet, target of the ten-entry batch. -/
def c9Sess : ExamSession :=
  { academicYear := "2024", term := "Term 1", session := "2024/2025",
    sessionType := "endterm", startDate := 0, endDate := 90, isActive := true,
    programs := [], classes := [], reminderFrequency := 1,
    publicationDateTime := 100, isOpen := true, marks := [] }

/-- Ten bulk entries; entry #4 carries the score 999, beyond every numeric
bound of the system (0–20, 0–80, 0–100). -/
def c9Inputs : List MarkInput :=
  [⟨"s1", 50⟩, ⟨"s2", 60⟩, ⟨"s3", 70⟩, ⟨"s4", 999⟩, ⟨"s5", 40⟩,
   ⟨"s6", 30⟩, ⟨"s7", 20⟩, ⟨"s8", 10⟩, ⟨"s9", 80⟩, ⟨"s10", 90⟩]

/-- C9 counterexample: the claim says a ten-entry batch with one
out-of-range entry persists nine records and reports a `ValidationError`
for the bad entry.  The route validates nothing: all ten entries (including
the 999 score of entry #4) are persisted and the response is the single
success message — not nine records, and no per-entry error. -/
theorem c9_counterexample :
    (submitMarks c9Sess "math" "t1" 3 c9Inputs).1 = MarksResponse.success ∧
    (submitMarks c9Sess "math" "t1" 3 c9Inputs).2.marks.length = 10 ∧
    ¬ (submitMarks c9Sess "math" "t1" 3 c9Inputs).2.marks.length = 9 ∧
    (c9Inputs.getD 3 ⟨"", 0⟩).score = 999 ∧
    ¬ ((999 : ℚ) ≤ 100) := by
  decide

/-- Witness for C9 (amended): the batch against the open `c9Sess` succeeds. -/
theorem c9_bulk_applies_every_entry_witness :
    (submitMarks c9Sess "math" "t1" 3 c9Inputs).1 = MarksResponse.success :=
  (c9_bulk_applies_every_entry c9Sess "math" "t1" 3 c9Inputs rfl).1

/-! ## Claim C1 — resubmission: embedded upsert vs `StudentMark` append -/

/-- When the marks list holds at most one entry for `(sid, subj)`, an upsert
leaves exactly one entry for the pair, carrying the submitted score and the
submission time. -/
theorem marksFor_upsertMark (sid subj : String) (score : ℚ) (u : String)
    (t : Int) :
    ∀ marks : List EmbeddedMark,
    (marksFor marks sid subj).length ≤ 1 →
    marksFor (upsertMark sid subj score u t marks) sid subj =
      [⟨sid, subj, score, u, t⟩] := by
  intro marks
  induction marks with
  | nil =>
    intro _
    simp [marksFor, upsertMark]
  | cons em rest ih =>
    intro hlen
    by_cases hc : (em.student == sid && em.subject == subj) = true
    · rw [Bool.and_eq_true] at hc
      have hst : em.student = sid := eq_of_beq hc.1
      have hsj : em.subject = subj := eq_of_beq hc.2
      have hcons : marksFor (em :: rest) sid subj = em :: marksFor rest sid subj := by
        simp [marksFor, List.filter_cons, hst, hsj]
      rw [hcons] at hlen
      have hzero : (marksFor rest sid subj).length = 0 := by
        simp only [List.length_cons] at hlen
        omega
      have hrest : marksFor rest sid subj = [] := List.length_eq_zero.mp hzero
      have hup : upsertMark sid subj score u t (em :: rest) =
          { em with score := score, submittedBy := u, submittedAt := t } :: rest := by
        simp [upsertMark, hst, hsj]
      rw [hup]
      have : marksFor ({ em with score := score, submittedBy := u, submittedAt := t } :: rest)
          sid subj =
          { em with score := score, submittedBy := u, submittedAt := t } ::
            marksFor rest sid subj := by
        simp [marksFor, List.filter_cons, hst, hsj]
      rw [this, hrest, hst, hsj]
    · have hup : upsertMark sid subj score u t (em :: rest) =
          em :: upsertMark sid subj score u t rest := by
        simp only [upsertMark, if_neg hc]
      have hcons : marksFor (em :: rest) sid subj = marksFor rest sid subj := by
        simp [marksFor, List.filter_cons, hc]
      have hskip : marksFor (em :: upsertMark sid subj score u t rest) sid subj =
          marksFor (upsertMark sid subj score u t rest) sid subj := by
        simp [marksFor, List.filter_cons, hc]
      rw [hup, hskip]
      exact ih (hcons ▸ hlen)

/-- C1 amended: through the embedded route, resubmitting the same
`(student, score)` payload for the same subject leaves exactly one embedded
mark for the `(student, subject)` pair — provided the session held at most
one entry for the pair to begin with — and that mark carries the score and
the `submittedAt` of the second call; the `StudentMark` path
(`recordMarks`), by contrast, appends a fresh record on every call, so an
identical resubmission yields two records for the
(student, session, subject) tuple (see the counterexample). -/
theorem c1_embedded_resubmission_overwrites :
    ∀ (sess : ExamSession) (subjectId userId : String) (t₁ t₂ : Int)
      (m : MarkInput),
    sess.isOpen = true →
    (marksFor sess.marks m.studentId subjectId).length ≤ 1 →
    marksFor ((submitMarks ((submitMarks sess subjectId userId t₁ [m]).2)
        subjectId userId t₂ [m]).2).marks m.studentId subjectId =
      [⟨m.studentId, subjectId, m.score, userId, t₂⟩] := by
  intro sess subjectId userId t₁ t₂ m hopen hlen
  set s1 := (submitMarks sess subjectId userId t₁ [m]).2 with hs1
  have h1 : s1.marks = upsertMark m.studentId subjectId m.score userId t₁ sess.marks := by
    rw [hs1]; simp [submitMarks, hopen]
  have h1open : s1.isOpen = true := by
    rw [hs1]; simp [submitMarks, hopen]
  have h2 : (submitMarks s1 subjectId userId t₂ [m]).2.marks =
      upsertMark m.studentId subjectId m.score userId t₂ s1.marks := by
    simp [submitMarks, h1open]
  rw [h2, h1]
  have hfirst := marksFor_upsertMark m.studentId subjectId m.score userId t₁
    sess.marks hlen
  apply marksFor_upsertMark
  rw [hfirst]
  simp

/-- The open, empty session of the C1 scenarios. -/
def c1Sess : ExamSession :=
  { academicYear := "2024", term := "Term 1", session := "2024/2025",
    sessionType := "midterm", startDate := 0, endDate := 90, isActive := true,
    programs := ["p1"], classes := [], reminderFrequency := 1,
    publicationDateTime := 100, isOpen := true, marks := [] }

/-- The Primary program of the C1 scenario. -/
def c1Prog : ProgramDoc := { id := "p1", name := "Primary" }

/-- A valid midterm payload, submitted twice verbatim. -/
def c1Body : RecordMarksBody :=
  { studentId := "s1", examSessionId := "e1", subjectId := "math",
    grade := none, academicEngagement := some 15, midtermExam := some 70,
    endtermExam := none, teacherComment := some "good", program := "p1" }

/-- C1 counterexample: the claim says submitting the same payload twice
leaves exactly one `StudentMark` record for the (student, session, subject)
tuple.  `recordMarks` never looks the tuple up: both identical calls
succeed, and afterwards the collection holds two records for the tuple, not
one. -/
theorem c1_counterexample :
    (recordMarks [] c1Sess c1Prog c1Body).1 =
      RecordResult.created (buildMarkRecord c1Sess c1Prog c1Body) ∧
    ((recordMarks ((recordMarks [] c1Sess c1Prog c1Body).2) c1Sess c1Prog
        c1Body).2.filter
      (fun r => r.student == "s1" && r.examSession == "e1" && r.subject == "math")).length
      = 2 := by
  decide

/-- Witness for C1 (amended): on the empty open `c1Sess`, two submissions of
`(s1, 50)` for subject `math` leave the single entry stamped by the second
call. -/
theorem c1_embedded_resubmission_overwrites_witness :
    marksFor ((submitMarks ((submitMarks c1Sess "math" "u1" 3 [⟨"s1", 50⟩]).2)
        "math" "u1" 7 [⟨"s1", 50⟩]).2).marks "s1" "math" =
      [⟨"s1", "math", 50, "u1", 7⟩] :=
  c1_embedded_resubmission_overwrites c1Sess "math" "u1" 3 7 ⟨"s1", 50⟩ rfl
    (by decide)

/-! ## Claim C4 — report-card statistics -/

/-- The route's `reduce((sum, mark) => sum + mark.score, 0)` equals the sum
of the raw scores. -/
theorem foldl_add_score :
    ∀ (l : List EmbeddedMark) (a : ℚ),
    l.foldl (fun sum m => sum + m.score) a = a + (l.map EmbeddedMark.score).sum := by
  intro l
  induction l with
  | nil => intro a; simp
  | cons x xs ih =>
    intro a
    simp only [List.foldl_cons, List.map_cons, List.sum_cons]
    rw [ih]
    ring

/-- A left fold of `max` lands on its seed or on a list element. -/
theorem foldl_max_mem : ∀ (l : List ℚ) (q : ℚ), l.foldl max q ∈ q :: l := by
  intro l
  induction l with
  | nil => intro q; simp
  | cons x xs ih =>
    intro q
    simp only [List.foldl_cons]
    rcases List.mem_cons.mp (ih (max q x)) with h | h
    · rw [h]
      rcases max_choice q x with hm | hm <;> rw [hm] <;> simp
    · exact List.mem_cons_of_mem _ (List.mem_cons_of_mem _ h)

/-- A left fold of `max` bounds its seed and every list element. -/
theorem foldl_max_le : ∀ (l : List ℚ) (q x : ℚ), x ∈ q :: l → x ≤ l.foldl max q := by
  intro l
  induction l with
  | nil =>
    intro q x hx
    simp only [List.foldl_nil]
    simp at hx
    exact le_of_eq hx
  | cons y ys ih =>
    intro q x hx
    simp only [List.foldl_cons]
    rcases List.mem_cons.mp hx with rfl | hx'
    · exact le_trans (le_max_left x y) (ih (max x y) _ (List.mem_cons_self _ _))
    · rcases List.mem_cons.mp hx' with rfl | hx2
      · exact le_trans (le_max_right q x) (ih (max q x) _ (List.mem_cons_self _ _))
      · exact ih (max q y) x (List.mem_cons_of_mem _ hx2)

/-- A left fold of `min` lands on its seed or on a list element. -/
theorem foldl_min_mem : ∀ (l : List ℚ) (q : ℚ), l.foldl min q ∈ q :: l := by
  intro l
  induction l with
  | nil => intro q; simp
  | cons x xs ih =>
    intro q
    simp only [List.foldl_cons]
    rcases List.mem_cons.mp (ih (min q x)) with h | h
    · rw [h]
      rcases min_choice q x with hm | hm <;> rw [hm] <;> simp
    · exact List.mem_cons_of_mem _ (List.mem_cons_of_mem _ h)

/-- A left fold of `min` is below its seed and every list element. -/
theorem foldl_min_le : ∀ (l : List ℚ) (q x : ℚ), x ∈ q :: l → l.foldl min q ≤ x := by
  intro l
  induction l with
  | nil =>
    intro q x hx
    simp only [List.foldl_nil]
    simp at hx
    exact le_of_eq hx.symm
  | cons y ys ih =>
    intro q x hx
    simp only [List.foldl_cons]
    rcases List.mem_cons.mp hx with rfl | hx'
    · exact le_trans (ih (min x y) _ (List.mem_cons_self _ _)) (min_le_left x y)
    · rcases List.mem_cons.mp hx' with rfl | hx2
      · exact le_trans (ih (min q x) _ (List.mem_cons_self _ _)) (min_le_right q x)
      · exact ih (min q y) x (List.mem_cons_of_mem _ hx2)

/-- C4 amended: the report-card statistics are computed from the raw
embedded `score` values of the student's mark entries — `totalSubjects` is
their count, `averageScore` the arithmetic mean of the raw scores,
`highestScore`/`lowestScore` their maximum and minimum — and the route's
statistics block is exactly this computation over the student-filtered
embedded marks; the `StudentMark` finalized values (`finalGrade`) are never
consulted and no kindergarten entry is excluded (see the counterexample). -/
theorem c4_statistics_over_raw_scores :
    ∀ (studentMarks : List EmbeddedMark),
    studentMarks ≠ [] →
    ∀ (sess : ExamSession) (scale : List GradeBand) (studentId : String)
      (rc : ReportCard),
    (reportCardStatistics studentMarks).totalSubjects = studentMarks.length ∧
    (reportCardStatistics studentMarks).averageScore =
      (studentMarks.map EmbeddedMark.score).sum / (studentMarks.length : ℚ) ∧
    (reportCardStatistics studentMarks).highestScore ∈
      studentMarks.map EmbeddedMark.score ∧
    (∀ s ∈ studentMarks.map EmbeddedMark.score,
      s ≤ (reportCardStatistics studentMarks).highestScore) ∧
    (reportCardStatistics studentMarks).lowestScore ∈
      studentMarks.map EmbeddedMark.score ∧
    (∀ s ∈ studentMarks.map EmbeddedMark.score,
      (reportCardStatistics studentMarks).lowestScore ≤ s) ∧
    (generateReportCard sess scale studentId = some rc →
      rc.statistics =
        reportCardStatistics (sess.marks.filter (fun m => m.student == studentId))) := by
  intro studentMarks hne sess scale studentId rc
  obtain ⟨m0, ms, rfl⟩ := List.exists_cons_of_ne_nil hne
  refine ⟨rfl, ?_, ?_, ?_, ?_, ?_, ?_⟩
  · simp [reportCardStatistics, foldl_add_score]
  · simpa [reportCardStatistics, maxSpread] using
      foldl_max_mem (ms.map EmbeddedMark.score) m0.score
  · intro s hs
    simp only [reportCardStatistics, maxSpread, List.map_cons]
    exact foldl_max_le _ _ _ (by simpa using hs)
  · simpa [reportCardStatistics, minSpread] using
      foldl_min_mem (ms.map EmbeddedMark.score) m0.score
  · intro s hs
    simp only [reportCardStatistics, minSpread, List.map_cons]
    exact foldl_min_le _ _ _ (by simpa using hs)
  · intro h
    by_cases he : (sess.marks.filter (fun m => m.student == studentId)).isEmpty
    · simp [generateReportCard, he] at h
    · simp [generateReportCard, he] at h
      rw [← h]

/-- The session of the C4 scenario: the embedded mark list holds the single
raw score 70 for student `s1`. -/
def c4Sess : ExamSession :=
  { academicYear := "2024", term := "Term 1", session := "2024/2025",
    sessionType := "midterm", startDate := 0, endDate := 90, isActive := true,
    programs := ["p1"], classes := [], reminderFrequency := 1,
    publicationDateTime := 100, isOpen := true,
    marks := [⟨"s1", "math", 70, "t1", 5⟩] }

/-- The student's sole `StudentMark` record for the same session: midterm,
engagement 15 and exam 70, so its finalized value (`finalGrade`) is 85. -/
def c4Record : StudentMark :=
  { student := "s1", examSession := "e1", subject := "math", grade := none,
    academicEngagement := some 15, midtermExam := some 70, endtermExam := none,
    teacherComment := some "good", programLevel := "primary",
    sessionType := "midterm", academicYear := "2024", term := "Term 1" }

/-- C4 counterexample: the claim says `averageScore` is the mean of the
finalized numeric values (midterm: `academicEngagement + midtermExam`).
The student's one record finalizes to 85, but the route averages the raw
embedded score and returns 70: the statistics are not computed from
finalized values. -/
theorem c4_counterexample :
    (generateReportCard c4Sess [] "s1").map (fun rc => rc.statistics.averageScore) =
      some 70 ∧
    finalizedScore c4Record = some 85 ∧
    (specReportStatistics [c4Record]).averageScore = 85 ∧
    ¬ ((70 : ℚ) = 85) := by
  have h1 : (("primary" : String) == "kindergarten") = false := by decide
  have h2 : (("midterm" : String) == "midterm") = true := by decide
  refine ⟨?_, ?_, ?_, by norm_num⟩
  · norm_num [generateReportCard, c4Sess, reportCardStatistics, maxSpread,
      minSpread, List.filter]
  · simp [finalizedScore, c4Record, h1, h2]
    norm_num
  · norm_num [specReportStatistics, finalizedScore, c4Record, List.filterMap_cons,
      h1, h2, maxSpread, minSpread]

/-- Witness for C4 (amended): the statistics of the one-mark list count one
subject. -/
theorem c4_statistics_over_raw_scores_witness :
    (reportCardStatistics [⟨"s1", "math", 70, "t1", 5⟩]).totalSubjects =
      ([⟨"s1", "math", 70, "t1", 5⟩] : List EmbeddedMark).length :=
  (c4_statistics_over_raw_scores [⟨"s1", "math", 70, "t1", 5⟩] (by simp)
    c4Sess [] "s1" ⟨[], ⟨0, 0, 0, 0⟩⟩).1
